import Mathlib

/-!
Shallow embedding of the WAV reader of the Arduino pitch detector
(`src/arduino-pitch_detector/wave.cpp`, with the configured sample rate from
`src/main/config.h`).

Modelling conventions:
* The byte source (`File & f`) is the list of bytes not yet consumed; a call
  to `f.read()` either yields the head byte or signals end-of-data on the
  empty list.  A real file delivers bytes in the range 0..255; the model uses
  `Nat` and theorems add `< 256` bounds where a value is interpreted.
* A `char` cell of a destination buffer holds an 8-bit pattern, modelled as a
  `Nat` below 256.  The store `*(buf++) = d + offset` keeps the low 8 bits of
  `d + offset` (AVR `char` wraps), which `balByte` computes.
* A struct filled by `_readBytes` is its underlying byte buffer; fields are
  decoded at their packed (`PACK8`) little-endian offsets by `le16At`/`le32At`.
* Machine integers are `Nat` with explicit reductions: the `uint16_t len`
  parameter of `_readBytes` makes every caller's argument act modulo 2^16,
  written `% 65536` at the call sites that can exceed it.
-/

namespace WaveSpec

/-- `Config::SAMPLE_RATE`, from `CONFIG_MIDIMIKE_SAMPLE_RATE` in
`src/main/config.h`. -/
def SAMPLE_RATE : Nat := 9615

/-- Modelled from the spec: `sampleCnt_t` (declared in a header outside the
sources in view) is the unsigned sample-count type; the spec treats the
sample count as an unbounded unsigned integer holding the "data" chunk's
32-bit declared length. -/
abbrev sampleCnt_t : Type := Nat

/-- The 8-bit pattern stored by `*(buf++) = d + offset` for a byte `d` read
from the file: the low 8 bits of `d + offset` (two's complement wraparound of
the AVR `char` store). -/
def balByte (d : Nat) (offset : Int) : Nat :=
  (((d : Int) + offset) % 256).toNat

/-- The read loop of `_readBytes` when `data` is non-null: reads `len` bytes
one at a time, storing `balByte d offset` into successive buffer cells.
Returns (status, remaining file, final buffer contents); status 1 the moment
a read signals end-of-data, leaving later cells untouched. -/
def _readInto (f : List Nat) (len : Nat) (offset : Int) (bs : List Nat) :
    Nat × List Nat × List Nat :=
  match len with
  | 0 => (0, f, bs)
  | len + 1 =>
    match f with
    | [] => (1, [], bs)
    | d :: rest =>
      let r := _readInto rest len offset bs.tail
      (r.1, r.2.1, balByte d offset :: r.2.2)
termination_by structural len

/-- The read loop of `_readBytes` when `data` is `NULL`: reads and discards
`len` bytes.  Returns (status, remaining file). -/
def _readSkip (f : List Nat) (len : Nat) : Nat × List Nat :=
  match len with
  | 0 => (0, f)
  | len + 1 =>
    match f with
    | [] => (1, [])
    | _ :: rest => _readSkip rest len
termination_by structural len

/-- `_readBytes(f, len, offset, data)` of `wave.cpp`: read exactly `len`
bytes, adding `offset` to each stored byte, or discard them when the
destination is absent.  `len` is a `uint16_t` in the source; callers that can
pass a wider value reduce it modulo 2^16 at the call site. -/
def _readBytes (f : List Nat) (len : Nat) (offset : Int)
    (buf : Option (List Nat)) : Nat × List Nat × Option (List Nat) :=
  match buf with
  | none => let r := _readSkip f len
            (r.1, r.2, none)
  | some bs => let r := _readInto f len offset bs
               (r.1, r.2.1, some r.2.2)

/-- 4-byte tag "RIFF". -/
def idRIFF : List Nat := [82, 73, 70, 70]

/-- 4-byte tag "WAVE". -/
def idWAVE : List Nat := [87, 65, 86, 69]

/-- 4-byte tag "fmt ". -/
def idFMT : List Nat := [102, 109, 116, 32]

/-- 4-byte tag "data". -/
def idDATA : List Nat := [100, 97, 116, 97]

/-- `memcmp(buf + off, tag, 4) == 0`: the four buffer bytes at offset `off`
equal the tag, byte for byte. -/
def memcmp4 (b : List Nat) (off : Nat) (tag : List Nat) : Bool :=
  (b.drop off).take 4 == tag

/-- Little-endian `uint16_t` field at byte offset `i` of a struct buffer. -/
def le16At (b : List Nat) (i : Nat) : Nat :=
  b.getD i 0 + 256 * b.getD (i + 1) 0

/-- Little-endian `uint32_t` field at byte offset `i` of a struct buffer. -/
def le32At (b : List Nat) (i : Nat) : Nat :=
  b.getD i 0 + 256 * b.getD (i + 1) 0 + 65536 * b.getD (i + 2) 0 +
    16777216 * b.getD (i + 3) 0

/-- `Wave::readHeader(f, pSampleCnt)`: parse the RIFF/WAVE prologue, the
"fmt " chunk and the "data" chunk header.  Returns
(status, remaining file, final `*pSampleCnt`), with `pSampleCnt` the value
held by the output location before the call.  Struct sizes: `chunk_t` = 12,
`hdr_t` = 8, `fmtValue_t` = 16 bytes.  The skip length
`hdr.len - sizeof(fmtValue)` is a `uint32_t` truncated by the `uint16_t len`
parameter of `_readBytes`, hence the `% 65536`. -/
def readHeader (f : List Nat) (pSampleCnt : sampleCnt_t) :
    Nat × List Nat × sampleCnt_t :=
  let r1 := _readBytes f 12 0 (some (List.replicate 12 0))
  let chunk := r1.2.2.getD []
  if r1.1 != 0 || !(memcmp4 chunk 0 idRIFF) || !(memcmp4 chunk 8 idWAVE) then
    (1, r1.2.1, pSampleCnt)
  else
    let r2 := _readBytes r1.2.1 8 0 (some (List.replicate 8 0))
    let hdr := r2.2.2.getD []
    if r2.1 != 0 || !(memcmp4 hdr 0 idFMT) then
      (2, r2.2.1, pSampleCnt)
    else if le32At hdr 4 < 16 then
      (3, r2.2.1, pSampleCnt)
    else
      let r3 := _readBytes r2.2.1 16 0 (some (List.replicate 16 0))
      if r3.1 != 0 then
        (3, r3.2.1, pSampleCnt)
      else
        let r4 := _readBytes r3.2.1 ((le32At hdr 4 - 16) % 65536) 0 none
        if r4.1 != 0 then
          (3, r4.2.1, pSampleCnt)
        else
          let fv := r3.2.2.getD []
          if le16At fv 0 != 1 || le16At fv 2 != 1 || le16At fv 14 != 8 ||
              le32At fv 4 != SAMPLE_RATE then
            (4, r4.2.1, pSampleCnt)
          else
            let r5 := _readBytes r4.2.1 8 0 (some (List.replicate 8 0))
            let dhdr := r5.2.2.getD []
            if r5.1 != 0 || !(memcmp4 dhdr 0 idDATA) then
              (5, r5.2.1, pSampleCnt)
            else
              (0, r5.2.1, le32At dhdr 4)

/-- `Wave::readSamples(f, nrOfSamples, samples)`: read `nrOfSamples` bytes,
adding `SCHAR_MIN = -128` to each, into the sample buffer.  `nrOfSamples` has
the spec-modelled unbounded type `sampleCnt_t` and is reduced modulo 2^16 by
the `uint16_t len` parameter of `_readBytes`.  Returns
(status, remaining file, final buffer contents). -/
def readSamples (f : List Nat) (nrOfSamples : sampleCnt_t)
    (samples : List Nat) : Nat × List Nat × List Nat :=
  let r := _readBytes f (nrOfSamples % 65536) (-128) (some samples)
  (if r.1 != 0 then 1 else 0, r.2.1, r.2.2.getD samples)

/-- Signed interpretation of an 8-bit cell pattern (two's complement),
mapping 0..127 to themselves and 128..255 to -128..-1. -/
def toInt8 (p : Nat) : Int :=
  if p % 256 < 128 then (p % 256 : Nat) else (p % 256 : Nat) - 256

/-- Little-endian byte encoding of a `uint16_t` value, for building inputs. -/
def le16bytes (v : Nat) : List Nat := [v % 256, v / 256 % 256]

/-- Little-endian byte encoding of a `uint32_t` value, for building inputs. -/
def le32bytes (v : Nat) : List Nat :=
  [v % 256, v / 256 % 256, v / 65536 % 256, v / 16777216 % 256]

/-- The 16 mandatory bytes of a `fmtValue_t` descriptor with the given
field values (`byteRate` and `blockAlign` given as raw bytes). -/
def fmtDescriptor (a c r b br0 br1 br2 br3 ba0 ba1 : Nat) : List Nat :=
  le16bytes a ++ le16bytes c ++ le32bytes r ++ [br0, br1, br2, br3, ba0, ba1]
    ++ le16bytes b

/-- A whole container: RIFF prologue (with arbitrary outer length bytes
`w0..w3`), "fmt " chunk of declared length `len` with descriptor `desc` and
trailing bytes `pad`, then a "data" chunk header declaring `n` samples,
followed by the bytes `rest`. -/
def container (w0 w1 w2 w3 : Nat) (len : Nat) (desc pad : List Nat)
    (n : Nat) (rest : List Nat) : List Nat :=
  (idRIFF ++ [w0, w1, w2, w3] ++ idWAVE) ++
    ((idFMT ++ le32bytes len) ++
      (desc ++ (pad ++ ((idDATA ++ le32bytes n) ++ rest))))

/-! ### Basic lemmas about the read primitive -/

theorem balByte_zero (d : Nat) : balByte d 0 = d % 256 := by
  unfold balByte
  omega

theorem balByte_neg128 (d : Nat) : balByte d (-128) = (d + 128) % 256 := by
  unfold balByte
  omega

theorem toInt8_balByte (d : Nat) (h : d < 256) :
    toInt8 (balByte d (-128)) = (d : Int) - 128 := by
  unfold toInt8 balByte
  split <;> omega

theorem readInto_append (xs : List Nat) :
    ∀ (rest bs : List Nat) (offset : Int),
      _readInto (xs ++ rest) xs.length offset bs
        = (0, rest, xs.map (fun d => balByte d offset) ++ bs.drop xs.length) := by
  induction xs with
  | nil => intro rest bs offset; rfl
  | cons x xs ih =>
    intro rest bs offset
    show (let r := _readInto (xs ++ rest) xs.length offset bs.tail
          (r.1, r.2.1, balByte x offset :: r.2.2)) = _
    rw [ih rest bs.tail offset]
    simp [List.tail_drop]

theorem readInto_short (xs : List Nat) :
    ∀ (k : Nat) (offset : Int) (bs : List Nat), xs.length < k →
      _readInto xs k offset bs
        = (1, [], xs.map (fun d => balByte d offset) ++ bs.drop xs.length) := by
  induction xs with
  | nil =>
    intro k offset bs hk
    match k, hk with
    | k + 1, _ => rfl
  | cons x xs ih =>
    intro k offset bs hk
    match k, hk with
    | k + 1, hk =>
      show (let r := _readInto xs k offset bs.tail
            (r.1, r.2.1, balByte x offset :: r.2.2)) = _
      rw [ih k offset bs.tail (by simpa using hk)]
      simp [List.tail_drop]

theorem readSkip_append (xs : List Nat) :
    ∀ rest : List Nat, _readSkip (xs ++ rest) xs.length = (0, rest) := by
  induction xs with
  | nil => intro rest; rfl
  | cons x xs ih => intro rest; exact ih rest

theorem readSkip_short (xs : List Nat) :
    ∀ k : Nat, xs.length < k → _readSkip xs k = (1, []) := by
  induction xs with
  | nil =>
    intro k hk
    match k, hk with
    | k + 1, _ => rfl
  | cons x xs ih =>
    intro k hk
    match k, hk with
    | k + 1, hk => exact ih k (by simpa using hk)

/-! ### Reading whole structs and skipping whole paddings -/

theorem readBytes_into_fresh (xs rest : List Nat) (n : Nat) (offset : Int)
    (h : xs.length = n) :
    _readBytes (xs ++ rest) n offset (some (List.replicate n 0))
      = (0, rest, some (xs.map (fun d => balByte d offset))) := by
  subst h
  simp [_readBytes, readInto_append]

theorem readBytes_skip_exact (xs rest : List Nat) (n : Nat)
    (h : xs.length = n) :
    _readBytes (xs ++ rest) n 0 none = (0, rest, none) := by
  subst h
  simp [_readBytes, readSkip_append]

/-! ### Decoding the struct buffers produced by the header reads -/

theorem mc_riff (w0 w1 w2 w3 : Nat) :
    memcmp4 ((idRIFF ++ [w0, w1, w2, w3] ++ idWAVE).map
      (fun d => balByte d 0)) 0 idRIFF = true := by rfl

theorem mc_wave (w0 w1 w2 w3 : Nat) :
    memcmp4 ((idRIFF ++ [w0, w1, w2, w3] ++ idWAVE).map
      (fun d => balByte d 0)) 8 idWAVE = true := by rfl

theorem mc_fmt (v : Nat) :
    memcmp4 (((idFMT ++ le32bytes v).map (fun d => balByte d 0))) 0 idFMT
      = true := by rfl

theorem mc_data (v : Nat) :
    memcmp4 (((idDATA ++ le32bytes v).map (fun d => balByte d 0))) 0 idDATA
      = true := by rfl

theorem le32At_hdr (tag : List Nat) (v : Nat) (h4 : tag.length = 4)
    (hv : v < 4294967296) :
    le32At ((tag ++ le32bytes v).map (fun d => balByte d 0)) 4 = v := by
  match tag, h4 with
  | [t0, t1, t2, t3], _ =>
    simp [le32At, le32bytes, balByte_zero]
    omega

theorem desc_audioFormat (a c r b br0 br1 br2 br3 ba0 ba1 : Nat)
    (ha : a < 65536) :
    le16At ((fmtDescriptor a c r b br0 br1 br2 br3 ba0 ba1).map
      (fun d => balByte d 0)) 0 = a := by
  simp [fmtDescriptor, le16bytes, le32bytes, le16At, balByte_zero]
  omega

theorem desc_numChannels (a c r b br0 br1 br2 br3 ba0 ba1 : Nat)
    (hc : c < 65536) :
    le16At ((fmtDescriptor a c r b br0 br1 br2 br3 ba0 ba1).map
      (fun d => balByte d 0)) 2 = c := by
  simp [fmtDescriptor, le16bytes, le32bytes, le16At, balByte_zero]
  omega

theorem desc_sampleRate (a c r b br0 br1 br2 br3 ba0 ba1 : Nat)
    (hr : r < 4294967296) :
    le32At ((fmtDescriptor a c r b br0 br1 br2 br3 ba0 ba1).map
      (fun d => balByte d 0)) 4 = r := by
  simp [fmtDescriptor, le16bytes, le32bytes, le32At, balByte_zero]
  omega

theorem desc_bitsPerSample (a c r b br0 br1 br2 br3 ba0 ba1 : Nat)
    (hb : b < 65536) :
    le16At ((fmtDescriptor a c r b br0 br1 br2 br3 ba0 ba1).map
      (fun d => balByte d 0)) 14 = b := by
  simp [fmtDescriptor, le16bytes, le32bytes, le16At, balByte_zero]
  omega

/-- Master lemma: on a well-formed container whose "fmt " chunk declares
length `L` and is followed by exactly `(L - 16) % 65536` trailing bytes (the
number the code actually discards), `readHeader` reaches the format gate and
either succeeds with the declared sample count or fails with code 4,
according to the four profile checks. -/
theorem readHeader_container (w0 w1 w2 w3 br0 br1 br2 br3 ba0 ba1 : Nat)
    (pad rest : List Nat) (L A C R B N p : Nat)
    (hL : 16 ≤ L) (hL32 : L < 4294967296)
    (hpad : pad.length = (L - 16) % 65536)
    (hA : A < 65536) (hC : C < 65536) (hR : R < 4294967296) (hB : B < 65536)
    (hN : N < 4294967296) :
    readHeader (container w0 w1 w2 w3 L
        (fmtDescriptor A C R B br0 br1 br2 br3 ba0 ba1) pad N rest) p
      = if A = 1 ∧ C = 1 ∧ B = 8 ∧ R = SAMPLE_RATE then (0, rest, N)
        else (4, (idDATA ++ le32bytes N) ++ rest, p) := by
  simp only [readHeader, container]
  rw [readBytes_into_fresh (idRIFF ++ [w0, w1, w2, w3] ++ idWAVE) _ 12 0 rfl]
  simp only [Option.getD_some, mc_riff, mc_wave, Bool.not_true, Bool.or_false,
    bne_self_eq_false, Bool.false_or, Bool.or_self, Bool.false_eq_true,
    if_false]
  rw [readBytes_into_fresh (idFMT ++ le32bytes L) _ 8 0 rfl]
  simp only [Option.getD_some, mc_fmt, Bool.not_true, Bool.or_false,
    bne_self_eq_false, Bool.false_or, Bool.or_self, Bool.false_eq_true,
    if_false]
  rw [le32At_hdr idFMT L rfl hL32]
  rw [if_neg (by omega)]
  rw [readBytes_into_fresh (fmtDescriptor A C R B br0 br1 br2 br3 ba0 ba1)
    _ 16 0 rfl]
  simp only [Option.getD_some, Bool.not_true, Bool.or_false,
    bne_self_eq_false, Bool.false_or, Bool.or_self, Bool.false_eq_true,
    if_false]
  rw [← hpad]
  rw [readBytes_skip_exact pad _ pad.length rfl]
  simp only [Option.getD_some, bne_self_eq_false, Bool.false_eq_true,
    if_false]
  rw [desc_audioFormat A C R B br0 br1 br2 br3 ba0 ba1 hA,
    desc_numChannels A C R B br0 br1 br2 br3 ba0 ba1 hC,
    desc_bitsPerSample A C R B br0 br1 br2 br3 ba0 ba1 hB,
    desc_sampleRate A C R B br0 br1 br2 br3 ba0 ba1 hR]
  by_cases h : A = 1 ∧ C = 1 ∧ B = 8 ∧ R = SAMPLE_RATE
  · rw [if_pos h]
    obtain ⟨h1, h2, h3, h4⟩ := h
    subst h1
    subst h2
    subst h3
    subst h4
    simp only [bne_self_eq_false, Bool.or_self, Bool.false_eq_true, if_false]
    rw [readBytes_into_fresh (idDATA ++ le32bytes N) _ 8 0 rfl]
    simp only [Option.getD_some, mc_data, Bool.not_true, Bool.or_false,
      bne_self_eq_false, Bool.false_or, Bool.or_self, Bool.false_eq_true,
      if_false]
    rw [le32At_hdr idDATA N rfl hN]
  · rw [if_neg h]
    rw [if_pos (show _ = true by
      simp only [Bool.or_eq_true, bne_iff_ne, ne_eq]
      tauto)]

/-- Every branch of `readHeader` either returns status 0 or leaves the
output location `pSampleCnt` at its prior value. -/
theorem readHeader_status_or_preserve (f : List Nat) (p : Nat) :
    (readHeader f p).1 = 0 ∨ (readHeader f p).2.2 = p := by
  simp only [readHeader]
  repeat' split
  all_goals simp

theorem getD_map_balByte (l : List Nat) (offset : Int) :
    ∀ i : Nat, i < l.length →
      (l.map (fun d => balByte d offset)).getD i 0
        = balByte (l.getD i 0) offset := by
  induction l with
  | nil => intro i hi; simp at hi
  | cons x l ih =>
    intro i hi
    cases i with
    | zero => rfl
    | succ j => simpa using ih j (by simpa using hi)

theorem getD_append_left (l l2 : List Nat) (i : Nat) (hi : i < l.length) :
    (l ++ l2).getD i 0 = l.getD i 0 := by
  rw [List.getD_append _ _ _ _ hi]

/-! ### Claim theorems -/

/-- C1 (amended: the fmt chunk's trailing length `L - 16` must additionally
be below 2^16, because the `uint16_t len` parameter of `_readBytes` truncates
the skip count): for every byte source whose prefix is a valid container
matching the profile — "RIFF" prologue with ANY outer length bytes
`w0..w3` (never validated), a "fmt " chunk of declared length `L ≥ 16` whose
descriptor has audioFormat 1, 1 channel, the configured rate, 8 bits per
sample, `L - 16` trailing bytes, then a "data" chunk header declaring `N` —
`readHeader` returns 0, writes `N` into `*pSampleCnt`, and consumes exactly
the header bytes, leaving the source at the first sample byte `rest`. -/
theorem readHeader_valid_profile (w0 w1 w2 w3 br0 br1 br2 br3 ba0 ba1 : Nat)
    (pad rest : List Nat) (L N p : Nat)
    (hL : 16 ≤ L) (hLu : L - 16 < 65536)
    (hpad : pad.length = L - 16) (hN : N < 4294967296) :
    readHeader (container w0 w1 w2 w3 L
        (fmtDescriptor 1 1 SAMPLE_RATE 8 br0 br1 br2 br3 ba0 ba1) pad N rest) p
      = (0, rest, N) := by
  have h := readHeader_container w0 w1 w2 w3 br0 br1 br2 br3 ba0 ba1 pad rest
    L 1 1 SAMPLE_RATE 8 N p hL (by omega)
    (by rw [hpad]; exact (Nat.mod_eq_of_lt hLu).symm)
    (by omega) (by omega) (by unfold SAMPLE_RATE; omega) (by omega) hN
  rw [if_pos ⟨rfl, rfl, rfl, rfl⟩] at h
  exact h

/-- C1 witness: a concrete valid container (L = 16, data length 3) parses to
sample count 3 with the three sample bytes left unconsumed. -/
theorem readHeader_valid_profile_witness :
    16 ≤ 16
    ∧ readHeader (container 9 9 9 9 16
        (fmtDescriptor 1 1 SAMPLE_RATE 8 0 0 0 0 0 0) [] 3 [0, 128, 255]) 7
      = (0, [0, 128, 255], 3) :=
  ⟨by decide, readHeader_valid_profile 9 9 9 9 0 0 0 0 0 0 [] [0, 128, 255]
    16 3 7 (by decide) (by decide) (by decide) (by decide)⟩

/-- C1 counterexample: a byte source whose prefix is a valid container
matching the profile, with fmt declared length 65552 (descriptor plus 65536
trailing bytes actually present) followed by a "data" chunk header declaring
3 samples.  The claim says `readHeader` returns 0 on every such source; in
fact it returns 5, because only `(65552 - 16) % 2^16 = 0` trailing bytes are
discarded and the trailing bytes themselves are misread as the data header. -/
theorem c1_truncated_skip_cex :
    (readHeader (container 0 0 0 0 65552
        (fmtDescriptor 1 1 SAMPLE_RATE 8 0 0 0 0 0 0)
        (List.replicate 65536 0) 3 []) 0).1 = 5 := by
  rfl

/-- C2 (amended: restricted to counts below 2^16, because `nrOfSamples` is
truncated by the `uint16_t len` parameter of `_readBytes`): for every count
and every byte source delivering at least that many bytes, `readSamples`
returns success after consuming exactly the counted prefix `pre`, the i-th
output slot receives the i-th delivered byte minus 128 (as a signed 8-bit
value), in order, and slots past the count keep their prior contents. -/
theorem readSamples_delivers (pre rest buf : List Nat)
    (h : pre.length < 65536) :
    readSamples (pre ++ rest) pre.length buf
        = (0, rest, pre.map (fun d => balByte d (-128)) ++ buf.drop pre.length)
      ∧ ∀ i : Nat, i < pre.length → pre.getD i 0 < 256 →
        toInt8 ((pre.map (fun d => balByte d (-128))
            ++ buf.drop pre.length).getD i 0)
          = (pre.getD i 0 : Int) - 128 := by
  constructor
  · simp only [readSamples, _readBytes]
    rw [Nat.mod_eq_of_lt h]
    simp only [readInto_append pre rest buf (-128)]
    rfl
  · intro i hi hb
    rw [getD_append_left _ _ _ (by simpa using hi)]
    rw [getD_map_balByte pre (-128) i hi]
    exact toInt8_balByte _ hb

/-- C2 witness: the spec's end-to-end bytes 0, 128, 255 decode to the
samples -128, 0, 127. -/
theorem readSamples_delivers_witness :
    ([0, 128, 255] : List Nat).length < 65536
    ∧ (readSamples ([0, 128, 255] ++ []) ([0, 128, 255] : List Nat).length
          [9, 9, 9]
        = (0, [], [0, 128, 255].map (fun d => balByte d (-128))
            ++ [9, 9, 9].drop ([0, 128, 255] : List Nat).length)
      ∧ ∀ i : Nat, i < ([0, 128, 255] : List Nat).length →
          ([0, 128, 255] : List Nat).getD i 0 < 256 →
          toInt8 (([0, 128, 255].map (fun d => balByte d (-128))
              ++ [9, 9, 9].drop ([0, 128, 255] : List Nat).length).getD i 0)
            = (([0, 128, 255] : List Nat).getD i 0 : Int) - 128) :=
  ⟨by decide, readSamples_delivers [0, 128, 255] [] [9, 9, 9] (by decide)⟩

/-- C2 counterexample: at count 65536 with a source delivering 65536 bytes,
`readSamples` reports success having consumed no byte at all and written no
slot — it does not read exactly `count` bytes, because the count is reduced
modulo 2^16 by the `uint16_t len` parameter. -/
theorem readSamples_count_truncation_cex :
    readSamples (List.replicate 65536 37) 65536 (List.replicate 4 9)
      = (0, List.replicate 65536 37, List.replicate 4 9) := by
  rfl

/-- C3 (amended: restricted to counts below 2^16, for the same `uint16_t`
truncation as C2): when the source holds fewer than `cnt` bytes,
`readSamples` fails with status 1 (TruncatedData) at the moment the source
is exhausted, never reporting success. -/
theorem readSamples_truncated_fails (f buf : List Nat) (cnt : Nat)
    (h1 : f.length < cnt) (h2 : cnt < 65536) :
    readSamples f cnt buf
      = (1, [], f.map (fun d => balByte d (-128)) ++ buf.drop f.length) := by
  simp only [readSamples, _readBytes]
  rw [Nat.mod_eq_of_lt h2]
  simp only [readInto_short f cnt (-128) buf h1]
  rfl

/-- C3 witness: one available byte against a requested count of 3 fails. -/
theorem readSamples_truncated_fails_witness :
    ([5] : List Nat).length < 3 ∧ 3 < 65536
    ∧ readSamples [5] 3 [1, 2, 3]
      = (1, [], [5].map (fun d => balByte d (-128))
          ++ [1, 2, 3].drop ([5] : List Nat).length) :=
  ⟨by decide, by decide,
    readSamples_truncated_fails [5] [1, 2, 3] 3 (by decide) (by decide)⟩

/-- C3 counterexample: with count 65536 and only 3 bytes available,
`readSamples` reports success (status 0), contradicting the claim that it
never returns success when the count exceeds the available bytes. -/
theorem readSamples_truncated_success_cex :
    readSamples [1, 2, 3] 65536 [] = (0, [1, 2, 3], []) := by
  rfl

/-- C4 (confirmed): on a container whose fmt descriptor is fully read (and
followed by a valid data chunk), `readHeader` passes the format gate with
status 0 exactly when audioFormat = 1, channels = 1, bitsPerSample = 8 and
sampleRate = the configured rate, and returns the single error code 4
(UnsupportedFormat) whenever any of the four checks fails, the same code for
all four perturbations. -/
theorem readHeader_format_gate (w0 w1 w2 w3 br0 br1 br2 br3 ba0 ba1 : Nat)
    (pad rest : List Nat) (L A C R B N p : Nat)
    (hL : 16 ≤ L) (hL32 : L < 4294967296)
    (hpad : pad.length = (L - 16) % 65536)
    (hA : A < 65536) (hC : C < 65536) (hR : R < 4294967296) (hB : B < 65536)
    (hN : N < 4294967296) :
    (readHeader (container w0 w1 w2 w3 L
        (fmtDescriptor A C R B br0 br1 br2 br3 ba0 ba1) pad N rest) p).1
      = if A = 1 ∧ C = 1 ∧ B = 8 ∧ R = SAMPLE_RATE then 0 else 4 := by
  rw [readHeader_container w0 w1 w2 w3 br0 br1 br2 br3 ba0 ba1 pad rest
    L A C R B N p hL hL32 hpad hA hC hR hB hN]
  split <;> rfl

/-- C4 witness: audioFormat = 2 (all other fields conforming) yields
error code 4. -/
theorem readHeader_format_gate_witness :
    16 ≤ 16
    ∧ (readHeader (container 0 0 0 0 16
        (fmtDescriptor 2 1 SAMPLE_RATE 8 0 0 0 0 0 0) [] 3 []) 0).1
      = if 2 = 1 ∧ 1 = 1 ∧ 8 = 8 ∧ SAMPLE_RATE = SAMPLE_RATE then 0 else 4 :=
  ⟨by decide, readHeader_format_gate 0 0 0 0 0 0 0 0 0 0 [] [] 16 2 1
    SAMPLE_RATE 8 3 0 (by decide) (by decide) (by decide) (by decide)
    (by decide) (by decide) (by decide) (by decide)⟩

/-- C5 (amended: the successful-parse conjunct additionally requires the
trailing length `L2 - 16` to be below 2^16, for the same `uint16_t` skip
truncation corrected in C1 and C6): a "fmt " chunk declaring length `L < 16`
makes `readHeader` fail with code 3 (FmtChunkTooShort) regardless of what
follows the chunk header, and a chunk declaring `L2 > 16` with
`L2 - 16 < 2^16` trailing bytes of any value supplied — e.g. the spec's
`L2 = 18` scenario — parses successfully with those bytes consumed,
discarded and absent from the result. -/
theorem readHeader_fmt_length_cases (w0 w1 w2 w3 : Nat)
    (tail pad rest : List Nat) (L L2 N p : Nat) (hL : L < 16)
    (hL2 : 16 < L2) (hL2u : L2 - 16 < 65536) (hpad : pad.length = L2 - 16)
    (hN : N < 4294967296) :
    readHeader ((idRIFF ++ [w0, w1, w2, w3] ++ idWAVE) ++
        ((idFMT ++ le32bytes L) ++ tail)) p
      = (3, tail, p)
    ∧ readHeader (container w0 w1 w2 w3 L2
        (fmtDescriptor 1 1 SAMPLE_RATE 8 0 0 0 0 0 0) pad N rest) p
      = (0, rest, N) := by
  constructor
  · simp only [readHeader]
    rw [readBytes_into_fresh (idRIFF ++ [w0, w1, w2, w3] ++ idWAVE) _ 12 0 rfl]
    simp only [Option.getD_some, mc_riff, mc_wave, Bool.not_true,
      Bool.or_false, bne_self_eq_false, Bool.false_or, Bool.or_self,
      Bool.false_eq_true, if_false]
    rw [readBytes_into_fresh (idFMT ++ le32bytes L) _ 8 0 rfl]
    simp only [Option.getD_some, mc_fmt, Bool.not_true, Bool.or_false,
      bne_self_eq_false, Bool.false_or, Bool.or_self, Bool.false_eq_true,
      if_false]
    rw [le32At_hdr idFMT L rfl (by omega)]
    rw [if_pos hL]
  · have h := readHeader_container w0 w1 w2 w3 0 0 0 0 0 0 pad rest
      L2 1 1 SAMPLE_RATE 8 N p (by omega) (by omega)
      (by rw [hpad]; exact (Nat.mod_eq_of_lt hL2u).symm)
      (by omega) (by omega) (by unfold SAMPLE_RATE; omega) (by omega) hN
    rw [if_pos ⟨rfl, rfl, rfl, rfl⟩] at h
    exact h

/-- C5 witness: L = 5 fails with code 3; L2 = 18 with trailing bytes 3, 4
succeeds with sample count 2 and the trailing bytes nowhere retained. -/
theorem readHeader_fmt_length_cases_witness :
    5 < 16 ∧ 16 < 18
    ∧ readHeader ((idRIFF ++ [0, 0, 0, 0] ++ idWAVE) ++
        ((idFMT ++ le32bytes 5) ++ [9])) 7 = (3, [9], 7)
    ∧ readHeader (container 0 0 0 0 18
        (fmtDescriptor 1 1 SAMPLE_RATE 8 0 0 0 0 0 0) [3, 4] 2 [8]) 7
      = (0, [8], 2) :=
  ⟨by decide, by decide,
    (readHeader_fmt_length_cases 0 0 0 0 [9] [3, 4] [8] 5 18 2 7
      (by decide) (by decide) (by decide) (by decide) (by decide)).1,
    (readHeader_fmt_length_cases 0 0 0 0 [9] [3, 4] [8] 5 18 2 7
      (by decide) (by decide) (by decide) (by decide) (by decide)).2⟩

/-- C5 counterexample: the claim asserts that for EVERY declaredLength > 16
with the trailing bytes supplied, the parse consumes the trailing
`declaredLength - 16` bytes and still succeeds.  At declaredLength 65552
with all 65536 trailing bytes present, the skip count truncates to
`(65552 - 16) % 2^16 = 0` in the `uint16_t len` parameter of `_readBytes`,
the trailing bytes are misread as the data chunk header, and the parse
fails with code 5 instead of succeeding. -/
theorem c5_padding_truncation_cex :
    (readHeader (container 0 0 0 0 65552
        (fmtDescriptor 1 1 SAMPLE_RATE 8 0 0 0 0 0 0)
        (List.replicate 65536 1) 2 []) 0).1 = 5 := by
  rfl

/-- C6 (amended: the number of bytes read-and-discarded after the 16-byte
descriptor is `(declaredLength - 16) % 2^16`, NOT the full 32-bit
difference, because the skip count passes through the `uint16_t len`
parameter of `_readBytes`): a container whose fmt chunk carries exactly
`(L - 16) % 2^16` trailing bytes — rather than `L - 16` — is the one the
parser accepts, examining the next chunk header immediately after them. -/
theorem readHeader_skip_reduced (w0 w1 w2 w3 br0 br1 br2 br3 ba0 ba1 : Nat)
    (pad rest : List Nat) (L N p : Nat)
    (hL : 16 ≤ L) (hL32 : L < 4294967296)
    (hpad : pad.length = (L - 16) % 65536) (hN : N < 4294967296) :
    readHeader (container w0 w1 w2 w3 L
        (fmtDescriptor 1 1 SAMPLE_RATE 8 br0 br1 br2 br3 ba0 ba1) pad N rest) p
      = (0, rest, N) := by
  have h := readHeader_container w0 w1 w2 w3 br0 br1 br2 br3 ba0 ba1 pad rest
    L 1 1 SAMPLE_RATE 8 N p hL hL32 hpad
    (by omega) (by omega) (by unfold SAMPLE_RATE; omega) (by omega) hN
  rw [if_pos ⟨rfl, rfl, rfl, rfl⟩] at h
  exact h

/-- C6 witness: declared length 65568 with only (65568 - 16) % 2^16 = 16
trailing bytes present parses successfully. -/
theorem readHeader_skip_reduced_witness :
    16 ≤ 65568
    ∧ readHeader (container 0 0 0 0 65568
        (fmtDescriptor 1 1 SAMPLE_RATE 8 0 0 0 0 0 0)
        (List.replicate 16 7) 5 [1, 2]) 0
      = (0, [1, 2], 5) :=
  ⟨by decide, readHeader_skip_reduced 0 0 0 0 0 0 0 0 0 0
    (List.replicate 16 7) [1, 2] 65568 5 0 (by decide) (by decide)
    (by decide) (by decide)⟩

/-- C6 counterexample: with fmt declared length 65552, the claim says 65536
further bytes are read-and-discarded before the next chunk header is
examined; in fact the parse succeeds on a source holding NO bytes between
the descriptor and the "data" header, so exactly 0 bytes were skipped. -/
theorem c6_skip_not_32bit_cex :
    readHeader (container 0 0 0 0 65552
        (fmtDescriptor 1 1 SAMPLE_RATE 8 0 0 0 0 0 0) [] 3 []) 0
      = (0, [], 3) := by
  rfl

/-- C7 (confirmed): whenever `readHeader` returns a nonzero status, the
output location `*pSampleCnt` still holds its prior value — it is written
only on the all-checks-passed success path. -/
theorem readHeader_error_preserves_pSampleCnt (f : List Nat) (p : Nat)
    (h : (readHeader f p).1 ≠ 0) : (readHeader f p).2.2 = p :=
  (readHeader_status_or_preserve f p).resolve_left h

/-- C7 witness: the empty source fails and leaves the prior value 7. -/
theorem readHeader_error_preserves_pSampleCnt_witness :
    (readHeader [] 7).1 ≠ 0 ∧ (readHeader [] 7).2.2 = 7 :=
  ⟨by decide, readHeader_error_preserves_pSampleCnt [] 7 (by decide)⟩

/-- C8 (amended: exhaustion of the byte source at header-parse time is NOT a
distinct code — it surfaces as the code of whichever parse step was in
progress, 1, 2, 3 or 5, the same codes used for the structural mismatches at
those steps): truncation during the prologue yields 1, after the prologue 2,
during the descriptor 3, and before the data header 5. -/
theorem readHeader_exhaustion_step_codes :
    (readHeader [] 0).1 = 1
    ∧ (readHeader (idRIFF ++ [0, 0, 0, 0] ++ idWAVE) 0).1 = 2
    ∧ (readHeader (idRIFF ++ [0, 0, 0, 0] ++ idWAVE ++ idFMT ++
        le32bytes 16) 0).1 = 3
    ∧ (readHeader (idRIFF ++ [0, 0, 0, 0] ++ idWAVE ++ idFMT ++
        le32bytes 16 ++ fmtDescriptor 1 1 SAMPLE_RATE 8 0 0 0 0 0 0) 0).1
      = 5 := by
  exact ⟨rfl, rfl, rfl, rfl⟩

/-- C8 counterexample: source exhaustion at header-parse time (empty source)
returns code 1, the very same code returned for a wrong "RIFF" tag
(MalformedRiff) — the exhaustion failure is not distinct from the
structural-mismatch codes as the claim requires. -/
theorem exhausted_code_collision_cex :
    (readHeader [] 0).1 = 1
    ∧ (readHeader [88, 88, 88, 88, 0, 0, 0, 0, 88, 88, 88, 88] 0).1 = 1 := by
  exact ⟨rfl, rfl⟩

/-- C9 (confirmed): with count 0, `readSamples` — and the underlying
`_readBytes` with `len = 0`, with or without a destination — succeeds
without consuming a byte or touching the buffer, on any source including an
already-exhausted one. -/
theorem read_zero_count_noop (f buf : List Nat) (offset : Int)
    (obuf : Option (List Nat)) :
    readSamples f 0 buf = (0, f, buf)
      ∧ _readBytes f 0 offset obuf = (0, f, obuf) := by
  refine ⟨rfl, ?_⟩
  cases obuf <;> rfl

/-- C10 (confirmed): when the source delivers exactly its `f.length < len`
bytes before end-of-data and a destination is provided, `_readBytes` fails
with status 1 having written the offset-adjusted values of exactly the
delivered bytes into the first slots in delivery order, while every slot at
index ≥ `f.length` keeps its prior contents. -/
theorem readBytes_partial_writes (f bs : List Nat) (len : Nat) (offset : Int)
    (h : f.length < len) :
    _readBytes f len offset (some bs)
      = (1, [], some (f.map (fun d => balByte d offset)
          ++ bs.drop f.length)) := by
  simp only [_readBytes]
  simp only [readInto_short f len offset bs h]

/-- C10 witness: two delivered bytes against a request of five leave the
first two slots rewritten and the last three as they were. -/
theorem readBytes_partial_writes_witness :
    ([10, 20] : List Nat).length < 5
    ∧ _readBytes [10, 20] 5 0 (some [1, 2, 3, 4, 5])
      = (1, [], some ([10, 20].map (fun d => balByte d 0)
          ++ [1, 2, 3, 4, 5].drop ([10, 20] : List Nat).length)) :=
  ⟨by decide, readBytes_partial_writes [10, 20] [1, 2, 3, 4, 5] 5 0 (by decide)⟩

end WaveSpec
